import Mathlib

/-!
Verification development for the per-connection WebPush protocol engine
(`src/autopush_rs/src/client.rs` and `src/autopush_rs/src/call.rs`).

The Rust state machine is shallowly embedded: the pure parts of each
transition become Lean functions, the event-driven parts become a step
function over an explicit configuration type, and the data-plane call
bridge (JSON serialization plus the error-envelope check) is modelled on
the set of JSON fields the deserializers inspect.  `Uuid` values are
128-bit numbers rendered to hex strings exactly as the `uuid` crate's
`simple()` and `hyphenated()` formatters do.
-/

/-- A 128-bit user/channel identifier (`uuid::Uuid`). -/
abbrev Uuid := Nat

/-- Lower-case hex digit for a value below 16, as the uuid crate renders it. -/
def hexChar (n : Nat) : Char :=
  if n < 10 then Char.ofNat (48 + n) else Char.ofNat (87 + n)

/-- Fixed-width little-recursion hex rendering: `hexDigits n w` is the
`w`-digit big-endian hex string of `n mod 16^w`. -/
def hexDigits : Nat → Nat → List Char
  | _, 0 => []
  | n, Nat.succ w => hexDigits (n / 16) w ++ [hexChar (n % 16)]

/-- `Uuid::simple()`: the compact, dash-free 32-hex-digit rendering. -/
def simpleStr (u : Uuid) : String :=
  ⟨hexDigits u 32⟩

/-- `Uuid::hyphenated()`: the 8-4-4-4-12 dashed rendering of the same digits. -/
def hyphenatedStr (u : Uuid) : String :=
  let d := hexDigits u 32
  ⟨d.take 8 ++ ['-'] ++ ((d.drop 8).take 4) ++ ['-'] ++ ((d.drop 12).take 4)
     ++ ['-'] ++ ((d.drop 16).take 4) ++ ['-'] ++ d.drop 20⟩

/-- Modelled from the spec: `protocol::Notification` (protocol.rs is not part
of the provided sources).  Spec section 3: `{channel_id, version, topic, data,
ttl, timestamp, uaid}`; the extra header fields play no role in any claim and
are omitted.  Ack matching uses `(channel_id, version)`. -/
structure Notification where
  channel_id : Uuid
  version : String
  ttl : Nat
  topic : Option String
  timestamp : Int
  data : Option String
  uaid : Option String
  deriving DecidableEq, Repr

/-- Modelled from the spec: one `(channel_id, version)` entry of a client
`Ack` frame (`protocol::ClientAck`). -/
structure ClientAck where
  channel_id : Uuid
  version : String
  deriving DecidableEq, Repr

/-- Modelled from the spec: `protocol::ClientMessage`, the already-parsed
client-to-server frames consumed by the state machine (spec section 4.2). -/
inductive ClientMessage where
  | hello (uaid : Option Uuid) (use_webpush : Option Bool)
  | register (channel_id : Uuid) (key : Option String)
  | unregister (channel_id : Uuid) (code : Option Int)
  | ack (updates : List ClientAck)
  | nack
  deriving DecidableEq, Repr

/-- Modelled from the spec: `protocol::ServerMessage`, the outbound frames
(spec section 4.2). -/
inductive ServerMessage where
  | hello (uaid : String) (status : Nat) (use_webpush : Option Bool)
  | register (channel_id : Uuid) (status : Nat) (push_endpoint : String)
  | unregister (channel_id : Uuid) (status : Nat)
  | notification (n : Notification)
  deriving DecidableEq, Repr

/-- Modelled from the spec: `protocol::ServerNotification`, the per-client
mailbox items (spec section 3). -/
inductive ServerNotification where
  | notification (n : Notification)
  | checkStorage
  deriving DecidableEq, Repr

/-- `ClientFlags` (client.rs lines 86-92): the five session booleans. -/
structure ClientFlags where
  include_topic : Bool
  increment_storage : Bool
  check : Bool
  reset_uaid : Bool
  rotate_message_table : Bool
  deriving DecidableEq, Repr

/-- `ClientFlags::new` (client.rs lines 94-103): `include_topic` starts true,
everything else false. -/
def ClientFlags.new : ClientFlags :=
  { include_topic := true
    increment_storage := false
    check := false
    reset_uaid := false
    rotate_message_table := false }

/-- `ClientFlags::none` (client.rs lines 105-117): true iff all five flags,
including `include_topic`, are false. -/
def ClientFlags.none (f : ClientFlags) : Bool :=
  match f with
  | { include_topic := false, increment_storage := false, check := false,
      reset_uaid := false, rotate_message_table := false } => true
  | _ => false

/-- `SessionStatistics` (client.rs lines 32-49). -/
structure SessionStatistics where
  uaid : String
  uaid_reset : Bool
  existing_uaid : Bool
  connection_type : String
  host : String
  direct_acked : Int
  direct_storage : Int
  stored_retrieved : Int
  stored_acked : Int
  nacks : Int
  unregisters : Int
  registers : Int
  deriving DecidableEq, Repr

/-- `WebPushClient` (client.rs lines 66-78), minus the mailbox receiver
handle, which carries no state inspected by any transition. -/
structure WebPushClient where
  uaid : Uuid
  flags : ClientFlags
  message_month : String
  unacked_direct_notifs : List Notification
  unacked_stored_notifs : List Notification
  unacked_stored_highest : Option Int
  connected_at : Nat
  stats : SessionStatistics
  deriving DecidableEq, Repr

/-- `WebPushClient::unacked_messages` (client.rs lines 81-83). -/
def WebPushClient.unacked_messages (w : WebPushClient) : Bool :=
  w.unacked_stored_notifs.length > 0 || w.unacked_direct_notifs.length > 0

/-- `ClientState` (client.rs lines 120-138).  States that hold an in-flight
future in Rust hold nothing here; the future's resolution arrives as an
event.  `FinishSend` keeps its boxed continuation state. -/
inductive ClientState where
  | WaitingForHello
  | WaitingForProcessHello
  | WaitingForRegister (channel_id : Uuid)
  | WaitingForUnRegister (channel_id : Uuid)
  | WaitingForCheckStorage
  | WaitingForDelete
  | WaitingForIncrementStorage
  | WaitingForDropUser
  | WaitingForMigrateUser
  | FinishSend (msg : Option ServerMessage) (next : Option ClientState)
  | SendMessages (more_messages : Option (List Notification))
  | CheckStorage
  | IncrementStorage
  | WaitingForAcks
  | Await
  | Done
  | ShutdownCleanup (err : Option String)

/-- The serialized data-plane request payload: `Call` (call.rs lines 118-167).
Every `uaid`/`channel_id` field is a `String` because the call sites format
the identifiers before constructing the call. -/
inductive Call where
  | Hello (connected_at : Int) (uaid : Option String)
  | Register (uaid : String) (channel_id : String) (message_month : String) (key : Option String)
  | Unregister (uaid : String) (channel_id : String) (message_month : String) (code : Int)
  | CheckStorage (uaid : String) (message_month : String) (include_topic : Bool) (timestamp : Option Int)
  | DeleteMessage (message : Notification) (message_month : String)
  | IncStoragePosition (uaid : String) (message_month : String) (timestamp : Int)
  | DropUser (uaid : String)
  | MigrateUser (uaid : String) (message_month : String)
  | StoreMessages (message_month : String) (messages : List Notification)
  deriving DecidableEq, Repr

/-- The `uaid` field carried at top level by a serialized call, if any. -/
def Call.uaidField : Call → Option String
  | .Hello _ u => u
  | .Register u _ _ _ => some u
  | .Unregister u _ _ _ => some u
  | .CheckStorage u _ _ _ => some u
  | .DeleteMessage _ _ => Option.none
  | .IncStoragePosition u _ _ => some u
  | .DropUser u => some u
  | .MigrateUser u _ => some u
  | .StoreMessages _ _ => Option.none

/-- `HelloResponse` (call.rs lines 175-183). -/
structure HelloResponse where
  uaid : Option Uuid
  message_month : String
  check_storage : Bool
  reset_uaid : Bool
  rotate_message_table : Bool
  connected_at : Nat
  deriving DecidableEq, Repr

/-- `RegisterResponse` (call.rs lines 185-195), an untagged union: the
`Success` form needs `endpoint`, the `Error` form needs `error_msg`, `error`
and `status`. -/
inductive RegisterResponse where
  | Success (endpoint : String)
  | Error (error_msg : String) (error : Bool) (status : Nat)
  deriving DecidableEq, Repr

/-- `UnRegisterResponse` (call.rs lines 197-207). -/
inductive UnRegisterResponse where
  | Success (success : Bool)
  | Error (error_msg : String) (error : Bool) (status : Nat)
  deriving DecidableEq, Repr

/-- `CheckStorageResponse` (call.rs lines 209-214). -/
structure CheckStorageResponse where
  include_topic : Bool
  messages : List Notification
  timestamp : Option Int
  deriving DecidableEq, Repr

/-- `DeleteMessageResponse` (call.rs lines 216-219). -/
structure DeleteMessageResponse where
  success : Bool
  deriving DecidableEq, Repr

/-- `IncStorageResponse` (call.rs lines 221-224). -/
structure IncStorageResponse where
  success : Bool
  deriving DecidableEq, Repr

/-- `DropUserResponse` (call.rs lines 226-229). -/
structure DropUserResponse where
  success : Bool
  deriving DecidableEq, Repr

/-- `MigrateUserResponse` (call.rs lines 231-234). -/
structure MigrateUserResponse where
  message_month : String
  deriving DecidableEq, Repr

/-- `PythonError` (call.rs lines 169-173): the error envelope
`{error: bool, error_msg: string}`.  Serde ignores any other fields. -/
structure PythonError where
  error : Bool
  error_msg : String
  deriving DecidableEq, Repr

/-- A data-plane JSON reply restricted to the fields that the register /
unregister / delete / increment deserializers inspect.  A field is `some`
exactly when the JSON object carries it (serde ignores unknown fields, so
other fields are irrelevant to every parse below). -/
structure RawReply where
  endpoint : Option String
  success : Option Bool
  error : Option Bool
  error_msg : Option String
  status : Option Nat
  deriving DecidableEq, Repr

/-- Deserializing a reply as `PythonError`: both `error` and `error_msg`
must be present. -/
def parsePythonError (r : RawReply) : Option PythonError :=
  match r.error, r.error_msg with
  | some e, some m => some ⟨e, m⟩
  | _, _ => Option.none

/-- `json_or_error` (call.rs lines 397-404): a reply that parses as
`PythonError` with `error = true` becomes a `RemoteError`; everything else
passes through for variant-specific deserialization. -/
def json_or_error (r : RawReply) : Except String RawReply :=
  match parsePythonError r with
  | some pe => if pe.error then .error ("python exception: " ++ pe.error_msg) else .ok r
  | Option.none => .ok r

/-- Untagged deserialization of `RegisterResponse`: `Success` is tried first
and matches iff `endpoint` is present; otherwise `Error` needs all three of
`error_msg`, `error`, `status`. -/
def parseRegisterResponse (r : RawReply) : Except String RegisterResponse :=
  match r.endpoint with
  | some e => .ok (.Success e)
  | Option.none =>
    match r.error_msg, r.error, r.status with
    | some m, some e, some s => .ok (.Error m e s)
    | _, _, _ => .error "data did not match any variant of untagged enum RegisterResponse"

/-- Untagged deserialization of `UnRegisterResponse`: `Success` needs
`success`, `Error` needs `error_msg`, `error` and `status`. -/
def parseUnRegisterResponse (r : RawReply) : Except String UnRegisterResponse :=
  match r.success with
  | some s => .ok (.Success s)
  | Option.none =>
    match r.error_msg, r.error, r.status with
    | some m, some e, some s => .ok (.Error m e s)
    | _, _, _ => .error "data did not match any variant of untagged enum UnRegisterResponse"

/-- Deserialization of `DeleteMessageResponse`: the `success` field is
required. -/
def parseDeleteResponse (r : RawReply) : Except String DeleteMessageResponse :=
  match r.success with
  | some s => .ok ⟨s⟩
  | Option.none => .error "missing field success"

/-- Deserialization of `IncStorageResponse`: the `success` field is
required. -/
def parseIncResponse (r : RawReply) : Except String IncStorageResponse :=
  match r.success with
  | some s => .ok ⟨s⟩
  | Option.none => .error "missing field success"

/-- The full reply path of a `Register` call (`PythonCall::new` receiver
side, call.rs lines 386-393): envelope check, then deserialization. -/
def bridgeRegister (r : RawReply) : Except String RegisterResponse :=
  (json_or_error r).bind parseRegisterResponse

/-- The full reply path of an `Unregister` call. -/
def bridgeUnRegister (r : RawReply) : Except String UnRegisterResponse :=
  (json_or_error r).bind parseUnRegisterResponse

/-- The full reply path of a `DeleteMessage` call. -/
def bridgeDelete (r : RawReply) : Except String DeleteMessageResponse :=
  (json_or_error r).bind parseDeleteResponse

/-- The full reply path of an `IncStoragePosition` call. -/
def bridgeInc (r : RawReply) : Except String IncStorageResponse :=
  (json_or_error r).bind parseIncResponse

/-- `Server::hello` (call.rs lines 243-255): the hello payload converts the
uaid to its compact form itself. -/
def serverHelloCall (connected_at : Nat) (uaid : Option Uuid) : Call :=
  .Hello (Int.ofNat connected_at) (uaid.map simpleStr)

/-- `Server::store_messages` (call.rs lines 355-370): stamps every message
with the (already compact) uaid string, then builds the payload. -/
def serverStoreMessagesCall (uaid : String) (message_month : String)
    (messages : List Notification) : Call :=
  .StoreMessages message_month (messages.map fun m => { m with uaid := some uaid })

/-- Call site in `ClientData::process_register` (client.rs lines 587-600):
compact uaid, hyphenated channel id. -/
def registerCallOf (w : WebPushClient) (channel_id : Uuid) (key : Option String) : Call :=
  .Register (simpleStr w.uaid) (hyphenatedStr channel_id) w.message_month key

/-- Call site in `ClientData::process_unregister` (client.rs lines 602-615):
absent code defaults to 200. -/
def unregisterCallOf (w : WebPushClient) (channel_id : Uuid) (code : Option Int) : Call :=
  .Unregister (simpleStr w.uaid) (hyphenatedStr channel_id) w.message_month (code.getD 200)

/-- Call site in the `ClientState::CheckStorage` transition (client.rs lines
248-257). -/
def checkStorageCallOf (w : WebPushClient) : Call :=
  .CheckStorage (simpleStr w.uaid) w.message_month w.flags.include_topic w.unacked_stored_highest

/-- Call site in the `ClientState::IncrementStorage` transition (client.rs
lines 258-266); `t` is the unwrapped `unacked_stored_highest`. -/
def incrementStorageCallOf (w : WebPushClient) (t : Int) : Call :=
  .IncStoragePosition (simpleStr w.uaid) w.message_month t

/-- Call site in `determine_acked_state` (client.rs lines 664-668). -/
def migrateUserCallOf (w : WebPushClient) : Call :=
  .MigrateUser (simpleStr w.uaid) w.message_month

/-- Call site in `determine_acked_state` (client.rs lines 669-672). -/
def dropUserCallOf (w : WebPushClient) : Call :=
  .DropUser (simpleStr w.uaid)

/-- Call site in `ClientData::process_acks` (client.rs lines 639-641). -/
def deleteMessageCallOf (message_month : String) (n : Notification) : Call :=
  .DeleteMessage n message_month

/-- Call site in `ClientData::shutdown` (client.rs lines 701-712). -/
def storeMessagesCallOf (w : WebPushClient) : Call :=
  serverStoreMessagesCall (simpleStr w.uaid) w.message_month w.unacked_direct_notifs

/-- `ClientData::process_hello` (client.rs lines 537-585): builds the
authenticated client record (flags from the response, statistics zeroed,
`stats.uaid` hyphenated) and queues the outbound `Hello` frame, hyphenated,
status 200, `use_webpush = Some(true)`, continuing to `Await`. -/
def process_hello (uaid : Uuid) (message_month : String) (reset_uaid : Bool)
    (rotate_message_table : Bool) (check_storage : Bool) (connected_at : Nat) :
    WebPushClient × ClientState :=
  let flags : ClientFlags :=
    { ClientFlags.new with
        check := check_storage
        reset_uaid := reset_uaid
        rotate_message_table := rotate_message_table }
  let w : WebPushClient :=
    { uaid := uaid
      flags := flags
      message_month := message_month
      unacked_direct_notifs := []
      unacked_stored_notifs := []
      unacked_stored_highest := Option.none
      connected_at := connected_at
      stats :=
        { uaid := hyphenatedStr uaid
          uaid_reset := reset_uaid
          existing_uaid := check_storage
          connection_type := "webpush"
          host := "unknown"
          direct_acked := 0
          direct_storage := 0
          stored_retrieved := 0
          stored_acked := 0
          nacks := 0
          registers := 0
          unregisters := 0 } }
  (w, .FinishSend (some (.hello (hyphenatedStr uaid) 200 (some true))) (some .Await))

/-- Completion of a `Register` call (`ClientState::WaitingForRegister`,
client.rs lines 351-377): outbound frame, statistics, continuation. -/
def register_complete (channel_id : Uuid) (r : RegisterResponse) (w : WebPushClient) :
    ServerMessage × WebPushClient × ClientState :=
  let (msg, w) :=
    match r with
    | .Success endpoint =>
        (ServerMessage.register channel_id 200 endpoint,
         { w with stats := { w.stats with registers := w.stats.registers + 1 } })
    | .Error _ _ status =>
        (ServerMessage.register channel_id status "", w)
  (msg, w, if w.unacked_messages then ClientState.WaitingForAcks else ClientState.Await)

/-- Completion of an `Unregister` call (`ClientState::WaitingForUnRegister`,
client.rs lines 378-400). -/
def unregister_complete (channel_id : Uuid) (r : UnRegisterResponse) (w : WebPushClient) :
    ServerMessage × WebPushClient × ClientState :=
  let (msg, w) :=
    match r with
    | .Success success =>
        (ServerMessage.unregister channel_id (if success then 200 else 500),
         { w with stats := { w.stats with unregisters := w.stats.unregisters + 1 } })
    | .Error _ _ status =>
        (ServerMessage.unregister channel_id status, w)
  (msg, w, if w.unacked_messages then ClientState.WaitingForAcks else ClientState.Await)

/-- Completion of a `CheckStorage` call (`ClientState::WaitingForCheckStorage`,
client.rs lines 307-334).  `include_topic` and `unacked_stored_highest` are
updated unconditionally; a non-empty batch sets
`increment_storage = !include_topic`, appends everything to the stored queue
and starts sending from the back (`Vec::pop`); an empty batch clears
`flags.check` and returns to `Await`. -/
def checkStorageComplete (w : WebPushClient) (r : CheckStorageResponse) :
    WebPushClient × ClientState :=
  let w := { w with
    flags := { w.flags with include_topic := r.include_topic }
    unacked_stored_highest := r.timestamp }
  match r.messages.getLast? with
  | some m =>
      let w := { w with
        flags := { w.flags with increment_storage := !r.include_topic }
        unacked_stored_notifs := w.unacked_stored_notifs ++ r.messages }
      (w, .FinishSend (some (.notification m)) (some (.SendMessages (some r.messages.dropLast))))
  | Option.none =>
      ({ w with flags := { w.flags with check := false } }, .Await)

/-- The `(channel_id, version)` ack-matching predicate used by
`process_acks` (client.rs lines 622-624 and 630-632). -/
def ack_matches (a : ClientAck) (v : Notification) : Bool :=
  v.channel_id == a.channel_id && v.version == a.version

/-- `Vec::iter().position` followed by `Vec::remove(pos)`: removes the first
element satisfying `p`, returning it and the remaining list. -/
def removeFirstBy (p : Notification → Bool) : List Notification →
    Option (Notification × List Notification)
  | [] => Option.none
  | n :: ns =>
      if p n then some (n, ns)
      else (removeFirstBy p ns).map fun x => (x.1, n :: x.2)

/-- The loop state of `process_acks`: the two queues, the statistics, and the
`DeleteMessage` payloads chained so far (in issue order). -/
structure AckAcc where
  direct : List Notification
  stored : List Notification
  stats : SessionStatistics
  deletes : List Notification
  deriving DecidableEq, Repr

/-- One iteration of the `process_acks` loop (client.rs lines 621-647):
direct queue first (bumping `direct_acked`), else stored queue (bumping
`stored_acked`, chaining a delete iff the removed notification has a topic),
else nothing. -/
def process_one_ack (acc : AckAcc) (notif : ClientAck) : AckAcc :=
  match removeFirstBy (ack_matches notif) acc.direct with
  | some (_, d) =>
      { acc with
          direct := d
          stats := { acc.stats with direct_acked := acc.stats.direct_acked + 1 } }
  | Option.none =>
    match removeFirstBy (ack_matches notif) acc.stored with
    | some (n, s) =>
        let acc := { acc with
          stored := s
          stats := { acc.stats with stored_acked := acc.stats.stored_acked + 1 } }
        if n.topic.isSome then { acc with deletes := acc.deletes ++ [n] } else acc
    | Option.none => acc

/-- `ClientData::process_acks` (client.rs lines 617-653): folds the loop over
the updates; the next state is `WaitingForDelete` iff at least one delete was
chained, else `WaitingForAcks`.  Also returns the chained delete payloads. -/
def process_acks (w : WebPushClient) (updates : List ClientAck) :
    WebPushClient × List Notification × ClientState :=
  let acc := updates.foldl process_one_ack
    ⟨w.unacked_direct_notifs, w.unacked_stored_notifs, w.stats, []⟩
  ({ w with
      unacked_direct_notifs := acc.direct
      unacked_stored_notifs := acc.stored
      stats := acc.stats },
   acc.deletes,
   if acc.deletes.isEmpty then ClientState.WaitingForAcks else ClientState.WaitingForDelete)

/-- `ClientData::determine_acked_state` (client.rs lines 655-678). -/
def determine_acked_state (w : WebPushClient) : Option ClientState :=
  let all_acked := !w.unacked_messages
  if all_acked && w.flags.check && w.flags.increment_storage then
    some .IncrementStorage
  else if all_acked && w.flags.check then
    some .CheckStorage
  else if all_acked && w.flags.rotate_message_table then
    some .WaitingForMigrateUser
  else if all_acked && w.flags.reset_uaid then
    some .WaitingForDropUser
  else if all_acked && w.flags.none then
    some .Await
  else
    Option.none

/-- The flush step of `ClientData::shutdown` (client.rs lines 684-713): if
the direct queue is non-empty, exactly one detached `StoreMessages` call is
spawned for it and `direct_storage` grows by its length; the stored queue is
never flushed.  Returns the spawned call (if any) and the final statistics. -/
def shutdownFlush (w : WebPushClient) : Option Call × SessionStatistics :=
  let n := w.unacked_direct_notifs.length
  if n > 0 then
    (some (storeMessagesCallOf w),
     { w.stats with direct_storage := w.stats.direct_storage + Int.ofNat n })
  else
    (Option.none, w.stats)

/-- A machine configuration: the current state plus the authenticated-client
record (absent before a successful hello, as `ClientData.webpush`). -/
structure Config where
  state : ClientState
  webpush : Option WebPushClient

/-- The inputs that can resolve a suspension point of `Client::transition`:
socket frames, mailbox items, the handshake timer, sink progress, data-plane
call results (each either a typed response or a call failure), and `tick` for
transitions that consume no input. -/
inductive Event where
  | msg (m : ClientMessage)
  | mail (n : ServerNotification)
  | timeout
  | eof
  | sink
  | tick
  | helloResp (r : Except String HelloResponse)
  | checkResp (r : Except String CheckStorageResponse)
  | registerResp (r : Except String RegisterResponse)
  | unregisterResp (r : Except String UnRegisterResponse)
  | deleteResp (r : Except String DeleteMessageResponse)
  | incResp (r : Except String IncStorageResponse)
  | dropResp (r : Except String DropUserResponse)
  | migrateResp (r : Except String MigrateUserResponse)

/-- One turn of `Client::transition` driven by one event (client.rs lines
189-488 plus the error arm of `Client::poll`, lines 771-782).  `none` means
the Rust code panics (an `unwrap` of `None`); a fatal `Err(e)` becomes
`ShutdownCleanup (some e)`; an event that the current state does not consume
leaves the configuration unchanged (the future stays `NotReady`). -/
def step (c : Config) (e : Event) : Option Config :=
  match c.state with
  | .WaitingForHello =>
    match e with
    | .timeout => some ⟨.ShutdownCleanup (some "Client timed out"), c.webpush⟩
    | .eof => some ⟨.ShutdownCleanup (some "Client dropped"), c.webpush⟩
    | .msg (.hello _ (some true)) => some ⟨.WaitingForProcessHello, c.webpush⟩
    | .msg _ => some ⟨.ShutdownCleanup (some "Invalid message, must be hello"), c.webpush⟩
    | _ => some c
  | .WaitingForProcessHello =>
    match e with
    | .helloResp (.ok r) =>
      match r.uaid with
      | some uaid =>
          let p := process_hello uaid r.message_month r.reset_uaid
            r.rotate_message_table r.check_storage r.connected_at
          some ⟨p.2, some p.1⟩
      | Option.none => some ⟨.ShutdownCleanup (some "Already connected elsewhere"), c.webpush⟩
    | .helloResp (.error err) => some ⟨.ShutdownCleanup (some err), c.webpush⟩
    | _ => some c
  | .FinishSend msg next =>
    match e with
    | .sink =>
      match msg, next with
      | Option.none, Option.none =>
          some ⟨.ShutdownCleanup (some "Bad state, should not have nothing to do"), c.webpush⟩
      | Option.none, some n => some ⟨n, c.webpush⟩
      | some _, some n => some ⟨.FinishSend Option.none (some n), c.webpush⟩
      | some _, Option.none => Option.none
    | _ => some c
  | .SendMessages more =>
    match e with
    | .tick =>
      match more with
      | some msgs =>
        match msgs.getLast? with
        | some m =>
            some ⟨.FinishSend (some (.notification m))
              (some (.SendMessages (if msgs.dropLast.isEmpty then Option.none
                                    else some msgs.dropLast))), c.webpush⟩
        | Option.none => some ⟨.SendMessages Option.none, c.webpush⟩
      | Option.none => some ⟨.WaitingForAcks, c.webpush⟩
    | _ => some c
  | .CheckStorage =>
    match e with
    | .tick =>
      match c.webpush with
      | some _ => some ⟨.WaitingForCheckStorage, c.webpush⟩
      | Option.none => Option.none
    | _ => some c
  | .IncrementStorage =>
    match e with
    | .tick =>
      match c.webpush with
      | some w =>
        match w.unacked_stored_highest with
        | some _ => some ⟨.WaitingForIncrementStorage, c.webpush⟩
        | Option.none => Option.none
      | Option.none => Option.none
    | _ => some c
  | .WaitingForCheckStorage =>
    match e with
    | .checkResp (.ok r) =>
      match c.webpush with
      | some w =>
          let p := checkStorageComplete w r
          some ⟨p.2, some p.1⟩
      | Option.none => Option.none
    | .checkResp (.error err) => some ⟨.ShutdownCleanup (some err), c.webpush⟩
    | _ => some c
  | .WaitingForIncrementStorage =>
    match e with
    | .incResp (.ok _) =>
      match c.webpush with
      | some w =>
          some ⟨.WaitingForAcks,
            some { w with flags := { w.flags with increment_storage := false } }⟩
      | Option.none => Option.none
    | .incResp (.error err) => some ⟨.ShutdownCleanup (some err), c.webpush⟩
    | _ => some c
  | .WaitingForMigrateUser =>
    match e with
    | .migrateResp (.ok r) =>
      match c.webpush with
      | some w =>
          some ⟨.Await,
            some { w with
              message_month := r.message_month
              flags := { w.flags with rotate_message_table := false } }⟩
      | Option.none => Option.none
    | .migrateResp (.error err) => some ⟨.ShutdownCleanup (some err), c.webpush⟩
    | _ => some c
  | .WaitingForRegister ch =>
    match e with
    | .registerResp (.ok r) =>
      match c.webpush with
      | some w =>
          let p := register_complete ch r w
          some ⟨.FinishSend (some p.1) (some p.2.2), some p.2.1⟩
      | Option.none => Option.none
    | .registerResp (.error err) => some ⟨.ShutdownCleanup (some err), c.webpush⟩
    | _ => some c
  | .WaitingForUnRegister ch =>
    match e with
    | .unregisterResp (.ok r) =>
      match c.webpush with
      | some w =>
          let p := unregister_complete ch r w
          some ⟨.FinishSend (some p.1) (some p.2.2), some p.2.1⟩
      | Option.none => Option.none
    | .unregisterResp (.error err) => some ⟨.ShutdownCleanup (some err), c.webpush⟩
    | _ => some c
  | .WaitingForDelete =>
    match e with
    | .deleteResp (.ok _) => some ⟨.WaitingForAcks, c.webpush⟩
    | .deleteResp (.error err) => some ⟨.ShutdownCleanup (some err), c.webpush⟩
    | _ => some c
  | .WaitingForDropUser =>
    match e with
    | .dropResp (.ok _) => some ⟨.Done, c.webpush⟩
    | .dropResp (.error err) => some ⟨.ShutdownCleanup (some err), c.webpush⟩
    | _ => some c
  | .WaitingForAcks =>
    match c.webpush with
    | Option.none => Option.none
    | some w =>
      match determine_acked_state w with
      | some s =>
          match e with
          | .tick => some ⟨s, some w⟩
          | _ => some c
      | Option.none =>
          match e with
          | .msg (.register ch _) => some ⟨.WaitingForRegister ch, some w⟩
          | .msg (.unregister ch _) => some ⟨.WaitingForUnRegister ch, some w⟩
          | .msg .nack =>
              some ⟨.WaitingForAcks,
                some { w with stats := { w.stats with nacks := w.stats.nacks + 1 } }⟩
          | .msg (.ack updates) =>
              let p := process_acks w updates
              some ⟨p.2.2, some p.1⟩
          | .msg _ => some ⟨.ShutdownCleanup (some "Invalid state transition"), some w⟩
          | .eof => some ⟨.ShutdownCleanup (some "Client dropped"), some w⟩
          | _ => some c
  | .Await =>
    match c.webpush with
    | Option.none => Option.none
    | some w =>
      if w.flags.check then
        match e with
        | .tick => some ⟨.CheckStorage, some w⟩
        | _ => some c
      else
        match e with
        | .msg (.register ch _) => some ⟨.WaitingForRegister ch, some w⟩
        | .msg (.unregister ch _) => some ⟨.WaitingForUnRegister ch, some w⟩
        | .msg .nack =>
            some ⟨.WaitingForAcks,
              some { w with stats := { w.stats with nacks := w.stats.nacks + 1 } }⟩
        | .msg _ => some ⟨.ShutdownCleanup (some "Invalid message"), some w⟩
        | .mail (.notification n) =>
            some ⟨.FinishSend (some (.notification n)) (some .WaitingForAcks),
              some { w with unacked_direct_notifs := w.unacked_direct_notifs ++ [n] }⟩
        | .mail .checkStorage =>
            some ⟨.Await,
              some { w with flags := { w.flags with include_topic := true, check := true } }⟩
        | .eof => some ⟨.ShutdownCleanup (some "Client dropped"), some w⟩
        | _ => some c
  | .ShutdownCleanup _ =>
    match e with
    | .tick => some ⟨.Done, Option.none⟩
    | _ => some c
  | .Done => some c

/-- The initial configuration: `ClientState::WaitingForHello`, no
authenticated client yet (client.rs lines 173-182). -/
def initConfig : Config :=
  ⟨.WaitingForHello, Option.none⟩

/-- Run the machine over a list of events; `none` as soon as any step
panics. -/
def run (c : Config) : List Event → Option Config
  | [] => some c
  | e :: es =>
      match step c e with
      | some c => run c es
      | Option.none => Option.none

/-- A sample authenticated client: the record produced by a hello response
that sets no flags. -/
def sampleClient : WebPushClient :=
  (process_hello 1 "m1" false false false 0).1

/-- A sample stored notification without a topic. -/
def n0 : Notification :=
  { channel_id := 1, version := "v1", ttl := 0, topic := Option.none,
    timestamp := 0, data := Option.none, uaid := Option.none }

/-- A sample notification that matches no ack below. -/
def n1 : Notification :=
  { channel_id := 1, version := "v2", ttl := 0, topic := Option.none,
    timestamp := 0, data := Option.none, uaid := Option.none }

/-- The ack tuple matching `n0`. -/
def a0 : ClientAck := ⟨1, "v1"⟩

/-- `ClientFlags.none` spelled out: true exactly when all five flags,
`include_topic` included, are false. -/
theorem flags_none_iff (f : ClientFlags) :
    f.none = true ↔
      f.include_topic = false ∧ f.increment_storage = false ∧ f.check = false ∧
      f.reset_uaid = false ∧ f.rotate_message_table = false := by
  obtain ⟨a, b, c, d, e⟩ := f
  cases a <;> cases b <;> cases c <;> cases d <;> cases e <;>
    simp [ClientFlags.none]

/-- A queue-emptiness reading of `unacked_messages`. -/
theorem unacked_messages_eq_false_iff (w : WebPushClient) :
    w.unacked_messages = false ↔
      w.unacked_direct_notifs = [] ∧ w.unacked_stored_notifs = [] := by
  simp [WebPushClient.unacked_messages, List.length_eq_zero, or_comm, and_comm]

/-- C1: `determine_acked_state` is a pure function of the flags and the two
unacked queues.  It returns a state only when both queues are empty, and then
selects, in priority order, `IncrementStorage` (check ∧ increment_storage),
`CheckStorage` (check), issuing `MigrateUser` (rotate_message_table), issuing
`DropUser` (reset_uaid), `Await` (all five flags false), and `None`
otherwise — in particular whenever either queue is non-empty. -/
theorem c1_determine_acked_state (w : WebPushClient) :
    (∀ s, determine_acked_state w = some s →
        w.unacked_direct_notifs = [] ∧ w.unacked_stored_notifs = []) ∧
    (w.unacked_direct_notifs = [] → w.unacked_stored_notifs = [] →
      determine_acked_state w =
        (if w.flags.check && w.flags.increment_storage then some .IncrementStorage
         else if w.flags.check then some .CheckStorage
         else if w.flags.rotate_message_table then some .WaitingForMigrateUser
         else if w.flags.reset_uaid then some .WaitingForDropUser
         else if !w.flags.include_topic && !w.flags.increment_storage && !w.flags.check
                 && !w.flags.reset_uaid && !w.flags.rotate_message_table then some .Await
         else Option.none)) := by
  constructor
  · intro s h
    have hb : w.unacked_messages = false := by
      cases hb : w.unacked_messages
      · rfl
      · simp [determine_acked_state, hb] at h
    exact (unacked_messages_eq_false_iff w).mp hb
  · intro h1 h2
    have hb : w.unacked_messages = false :=
      (unacked_messages_eq_false_iff w).mpr ⟨h1, h2⟩
    obtain ⟨u, ⟨a, b, c, d, e⟩, mm, dn, sn, hi, ca, st⟩ := w
    simp only [determine_acked_state, hb] at *
    cases a <;> cases b <;> cases c <;> cases d <;> cases e <;>
      simp [ClientFlags.none]

theorem c1_witness :
    determine_acked_state sampleClient = Option.none :=
  ((c1_determine_acked_state sampleClient).2 rfl rfl).trans rfl

/-- With both queues empty, the `process_acks` loop is a no-op. -/
theorem foldl_acks_nil (updates : List ClientAck) (st : SessionStatistics)
    (dels : List Notification) :
    updates.foldl process_one_ack ⟨[], [], st, dels⟩ = ⟨[], [], st, dels⟩ := by
  induction updates with
  | nil => rfl
  | cons a as ih => simpa [process_one_ack, removeFirstBy] using ih

/-- C9: with both queues empty and the flags exactly as `ClientFlags::new`
leaves them after a no-flag hello response (`include_topic = true`, the other
four false), `determine_acked_state` returns `None` — `ClientFlags::none`
demands all five flags false — so the session stays in `WaitingForAcks`
(acks, nacks and ticks keep it there) instead of returning to `Await`. -/
theorem c9_include_topic_blocks_await (w : WebPushClient)
    (hf : w.flags = ClientFlags.new)
    (hd : w.unacked_direct_notifs = [])
    (hs : w.unacked_stored_notifs = []) :
    ClientFlags.none ClientFlags.new = false ∧
    determine_acked_state w = Option.none ∧
    (∀ updates, step ⟨.WaitingForAcks, some w⟩ (.msg (.ack updates)) =
        some ⟨.WaitingForAcks, some w⟩) ∧
    step ⟨.WaitingForAcks, some w⟩ (.msg .nack) =
      some ⟨.WaitingForAcks,
        some { w with stats := { w.stats with nacks := w.stats.nacks + 1 } }⟩ ∧
    step ⟨.WaitingForAcks, some w⟩ .tick = some ⟨.WaitingForAcks, some w⟩ := by
  have hnone : ClientFlags.none ClientFlags.new = false := rfl
  have hb : w.unacked_messages = false :=
    (unacked_messages_eq_false_iff w).mpr ⟨hd, hs⟩
  have hdet : determine_acked_state w = Option.none := by
    simp [determine_acked_state, hb, hf, ClientFlags.new, ClientFlags.none]
  refine ⟨hnone, hdet, ?_, ?_, ?_⟩
  · intro updates
    have hpa : process_acks w updates =
        (w, [], ClientState.WaitingForAcks) := by
      obtain ⟨u, fl, mm, dn, sn, hi, ca, st⟩ := w
      simp only at hd hs
      subst hd
      subst hs
      simp [process_acks, foldl_acks_nil]
    simp [step, hdet, hpa]
  · simp [step, hdet]
  · simp [step, hdet]

theorem c9_witness :
    step ⟨.WaitingForAcks, some sampleClient⟩ .tick =
      some ⟨.WaitingForAcks, some sampleClient⟩ :=
  (c9_include_topic_blocks_await sampleClient rfl rfl rfl).2.2.2.2

/-- C6: completing a check-storage call copies `include_topic` and
`timestamp` from the response into the flags and the high-watermark; a
non-empty batch sets `increment_storage` to the negation of the returned
`include_topic`, appends every returned message to `unacked_stored`, and
proceeds to sending them (last message first, the rest queued behind the
send); an empty batch clears `flags.check` and transitions to `Await`. -/
theorem c6_check_storage_completion (w : WebPushClient) (r : CheckStorageResponse) :
    (checkStorageComplete w r).1.flags.include_topic = r.include_topic ∧
    (checkStorageComplete w r).1.unacked_stored_highest = r.timestamp ∧
    (∀ m rest, r.messages = rest ++ [m] →
        (checkStorageComplete w r).1.flags.increment_storage = !r.include_topic ∧
        (checkStorageComplete w r).1.unacked_stored_notifs
          = w.unacked_stored_notifs ++ r.messages ∧
        (checkStorageComplete w r).2
          = .FinishSend (some (.notification m)) (some (.SendMessages (some rest)))) ∧
    (r.messages = [] →
        (checkStorageComplete w r).1.flags.check = false ∧
        (checkStorageComplete w r).1.flags.increment_storage = w.flags.increment_storage ∧
        (checkStorageComplete w r).1.unacked_stored_notifs = w.unacked_stored_notifs ∧
        (checkStorageComplete w r).2 = .Await) := by
  refine ⟨?_, ?_, ?_, ?_⟩
  · rcases List.eq_nil_or_concat r.messages with h | ⟨l, m, h⟩ <;>
      simp [checkStorageComplete, h, List.getLast?_concat]
  · rcases List.eq_nil_or_concat r.messages with h | ⟨l, m, h⟩ <;>
      simp [checkStorageComplete, h, List.getLast?_concat]
  · intro m rest h
    simp [checkStorageComplete, h, List.getLast?_concat, List.dropLast_concat]
  · intro h
    simp [checkStorageComplete, h]

theorem c6_witness :
    (checkStorageComplete sampleClient
        { include_topic := false, messages := [n0], timestamp := some 7 }).2
      = .FinishSend (some (.notification n0)) (some (.SendMessages (some []))) :=
  ((c6_check_storage_completion sampleClient
      { include_topic := false, messages := [n0], timestamp := some 7 }).2.2.1
    n0 [] rfl).2.2

/-- `hexDigits` always renders exactly its requested width. -/
theorem hexDigits_length (w : Nat) : ∀ n, (hexDigits n w).length = w := by
  induction w with
  | zero => intro n; rfl
  | succ w ih =>
      intro n
      simp [hexDigits, ih]

/-- C7: uaid formatting is routed by boundary.  Every data-plane call built
by the client (hello, register, unregister, check_storage,
inc_storage_position, drop_user, migrate_user, store_messages) carries the
compact 32-digit rendering of the uaid, while the outbound `Hello` frame
built from a successful hello response carries the hyphenated rendering of
the response uaid, with status 200 and `use_webpush = Some(true)`.  The two
renderings are never equal (36 characters versus 32). -/
theorem c7_uaid_boundary_forms (u : Uuid) (w : WebPushClient) (hw : w.uaid = u)
    (ch : Uuid) (key : Option String) (code : Option Int) (t : Int) (ca : Nat)
    (mm : String) (ru rt cs : Bool) :
    (serverHelloCall ca (some u)).uaidField = some (simpleStr u) ∧
    (registerCallOf w ch key).uaidField = some (simpleStr u) ∧
    (unregisterCallOf w ch code).uaidField = some (simpleStr u) ∧
    (checkStorageCallOf w).uaidField = some (simpleStr u) ∧
    (incrementStorageCallOf w t).uaidField = some (simpleStr u) ∧
    (migrateUserCallOf w).uaidField = some (simpleStr u) ∧
    (dropUserCallOf w).uaidField = some (simpleStr u) ∧
    storeMessagesCallOf w
      = .StoreMessages w.message_month
          (w.unacked_direct_notifs.map fun m => { m with uaid := some (simpleStr u) }) ∧
    (process_hello u mm ru rt cs ca).2
      = .FinishSend (some (.hello (hyphenatedStr u) 200 (some true))) (some .Await) ∧
    (simpleStr u).length = 32 ∧
    (hyphenatedStr u).length = 36 ∧
    hyphenatedStr u ≠ simpleStr u := by
  subst hw
  have hs : (simpleStr w.uaid).length = 32 := by
    show (hexDigits w.uaid 32).length = 32
    exact hexDigits_length 32 w.uaid
  have hh : (hyphenatedStr w.uaid).length = 36 := by
    show (let d := hexDigits w.uaid 32;
      d.take 8 ++ ['-'] ++ ((d.drop 8).take 4) ++ ['-'] ++ ((d.drop 12).take 4)
        ++ ['-'] ++ ((d.drop 16).take 4) ++ ['-'] ++ d.drop 20).length = 36
    simp [List.length_take, List.length_drop, hexDigits_length]
  refine ⟨rfl, rfl, rfl, rfl, rfl, rfl, rfl, rfl, rfl, hs, hh, ?_⟩
  intro h
  have := congrArg String.length h
  rw [hs, hh] at this
  exact absurd this (by decide)

theorem c7_witness :
    hyphenatedStr (1 : Uuid) ≠ simpleStr (1 : Uuid) :=
  (c7_uaid_boundary_forms 1 sampleClient rfl 2 Option.none Option.none 0 0 "m1"
      false false false).2.2.2.2.2.2.2.2.2.2.2

/-- C8: on shutdown of an authenticated client, a non-empty direct queue
produces exactly one detached `StoreMessages` call carrying precisely the
direct notifications (each stamped with the client's compact uaid) under the
client's message month, and `direct_storage` grows by the queue length; an
empty direct queue produces no call; the stored queue is never flushed. -/
theorem c8_shutdown_flush (w : WebPushClient) :
    (w.unacked_direct_notifs ≠ [] →
      (shutdownFlush w).1
        = some (.StoreMessages w.message_month
            (w.unacked_direct_notifs.map fun m => { m with uaid := some (simpleStr w.uaid) })) ∧
      (shutdownFlush w).2
        = { w.stats with direct_storage :=
              w.stats.direct_storage + (w.unacked_direct_notifs.length : Int) }) ∧
    (w.unacked_direct_notifs = [] →
      (shutdownFlush w).1 = Option.none ∧ (shutdownFlush w).2 = w.stats) := by
  constructor
  · intro h
    have hlen : 0 < w.unacked_direct_notifs.length := List.length_pos.mpr h
    constructor
    · simp [shutdownFlush, hlen, storeMessagesCallOf, serverStoreMessagesCall]
    · simp [shutdownFlush, hlen, Int.ofNat_eq_coe]
  · intro h
    simp [shutdownFlush, h]

theorem c8_witness :
    (shutdownFlush { sampleClient with unacked_direct_notifs := [n0] }).1
      = some (.StoreMessages "m1" [{ n0 with uaid := some (simpleStr 1) }]) :=
  ((c8_shutdown_flush { sampleClient with unacked_direct_notifs := [n0] }).1
    (List.cons_ne_nil n0 [])).1

/-- C10: the `success` field of a `DeleteMessage` or `IncStoragePosition`
reply that deserializes successfully is ignored: `success = false` behaves
exactly as `success = true` (`WaitingForDelete → WaitingForAcks`;
`WaitingForIncrementStorage` clears `increment_storage` and goes to
`WaitingForAcks`).  Only the error envelope — or a failed call — is fatal:
a reply carrying `error = true` with an `error_msg` is rejected by the
bridge, a reply with `error = false` and a `success` field deserializes,
a reply without `success` fails deserialization, and a failed call drives
the state to `ShutdownCleanup`. -/
theorem c10_delete_inc_success_ignored (w : WebPushClient) (s : Bool) (err : String)
    (su : Option Bool) (msg : String) :
    step ⟨.WaitingForDelete, some w⟩ (.deleteResp (.ok ⟨s⟩))
      = some ⟨.WaitingForAcks, some w⟩ ∧
    step ⟨.WaitingForDelete, some w⟩ (.deleteResp (.ok ⟨true⟩))
      = step ⟨.WaitingForDelete, some w⟩ (.deleteResp (.ok ⟨false⟩)) ∧
    step ⟨.WaitingForIncrementStorage, some w⟩ (.incResp (.ok ⟨s⟩))
      = some ⟨.WaitingForAcks,
          some { w with flags := { w.flags with increment_storage := false } }⟩ ∧
    step ⟨.WaitingForIncrementStorage, some w⟩ (.incResp (.ok ⟨true⟩))
      = step ⟨.WaitingForIncrementStorage, some w⟩ (.incResp (.ok ⟨false⟩)) ∧
    step ⟨.WaitingForDelete, some w⟩ (.deleteResp (.error err))
      = some ⟨.ShutdownCleanup (some err), some w⟩ ∧
    step ⟨.WaitingForIncrementStorage, some w⟩ (.incResp (.error err))
      = some ⟨.ShutdownCleanup (some err), some w⟩ ∧
    bridgeDelete ⟨Option.none, su, some true, some msg, Option.none⟩
      = .error ("python exception: " ++ msg) ∧
    bridgeInc ⟨Option.none, su, some true, some msg, Option.none⟩
      = .error ("python exception: " ++ msg) ∧
    bridgeDelete ⟨Option.none, some s, some false, some msg, Option.none⟩ = .ok ⟨s⟩ ∧
    bridgeInc ⟨Option.none, some s, some false, some msg, Option.none⟩ = .ok ⟨s⟩ ∧
    bridgeDelete ⟨Option.none, some s, Option.none, Option.none, Option.none⟩ = .ok ⟨s⟩ ∧
    bridgeDelete ⟨Option.none, Option.none, Option.none, Option.none, Option.none⟩
      = .error "missing field success" :=
  ⟨rfl, rfl, rfl, rfl, rfl, rfl, rfl, rfl, rfl, rfl, rfl, rfl⟩

/-- The reply `{error: true, error_msg: "boom", status: 409}` from a Register
call: the remote error envelope of spec section 6. -/
def errorEnvelopeReply : RawReply :=
  ⟨Option.none, Option.none, some true, some "boom", some 409⟩

/-- C2 counterexample: a Register reply that IS the remote error envelope
(`error: true`) never reaches the `RegisterResponse::Error` arm — 
`json_or_error` turns it into a failed call — so instead of an outbound
`Register{status=409, push_endpoint=""}` frame followed by `Await`, the
session is torn down through `ShutdownCleanup`. -/
theorem c2_counterexample :
    bridgeRegister errorEnvelopeReply = .error "python exception: boom" ∧
    step ⟨.WaitingForRegister 5, some sampleClient⟩
        (.registerResp (bridgeRegister errorEnvelopeReply))
      = some ⟨.ShutdownCleanup (some "python exception: boom"), some sampleClient⟩ :=
  ⟨rfl, rfl⟩

/-- If a raw reply deserializes to the `RegisterResponse::Error` variant, all
three error fields were present and `endpoint` was absent. -/
theorem parseRegister_error_fields (r : RawReply) (msg : String) (er : Bool) (st : Nat)
    (h : parseRegisterResponse r = .ok (.Error msg er st)) :
    r.endpoint = Option.none ∧ r.error_msg = some msg ∧ r.error = some er ∧
      r.status = some st := by
  obtain ⟨ep, su, e?, em?, st?⟩ := r
  cases ep <;> cases em? <;> cases e? <;> cases st? <;>
    simp [parseRegisterResponse] at h <;> simp_all

/-- C2 (amended): a Register reply that deserializes to the
`RegisterResponse::Error` variant — which requires its `error` field to be
false, the only error-shaped reply that survives the envelope check — is not
fatal: the connection sends `Register` with the remote status and an empty
`push_endpoint`, `stats.registers` is unchanged (the whole client record is
unchanged), and the session continues, to `Await` when no messages are
unacked. -/
theorem c2_amended_register_error_not_fatal (r : RawReply) (msg : String) (er : Bool)
    (st : Nat) (h : bridgeRegister r = .ok (.Error msg er st)) (ch : Uuid)
    (w : WebPushClient) :
    er = false ∧
    step ⟨.WaitingForRegister ch, some w⟩ (.registerResp (.ok (.Error msg er st)))
      = some ⟨.FinishSend (some (.register ch st ""))
          (some (if w.unacked_messages then ClientState.WaitingForAcks
                 else ClientState.Await)),
          some w⟩ := by
  refine ⟨?_, ?_⟩
  · cases hpe : parsePythonError r with
    | none =>
        simp only [bridgeRegister, json_or_error, hpe, Except.bind] at h
        obtain ⟨-, hem, her, -⟩ := parseRegister_error_fields r msg er st h
        rw [parsePythonError, her, hem] at hpe
        cases hpe
    | some pe =>
        cases hb : pe.error with
        | true =>
            simp only [bridgeRegister, json_or_error, hpe, hb, if_true, Except.bind] at h
            cases h
        | false =>
            simp only [bridgeRegister, json_or_error, hpe, hb, if_false, Except.bind] at h
            obtain ⟨-, hem, her, -⟩ := parseRegister_error_fields r msg er st h
            rw [parsePythonError, her, hem] at hpe
            cases hpe
            exact hb
  · simp [step, register_complete]

/-- The reply `{error: false, error_msg: "boom", status: 409}`: the only
error-shaped Register reply that reaches the `Error` variant. -/
def plainErrorReply : RawReply :=
  ⟨Option.none, Option.none, some false, some "boom", some 409⟩

theorem c2_witness :
    false = false ∧
    step ⟨.WaitingForRegister 5, some sampleClient⟩
        (.registerResp (.ok (.Error "boom" false 409)))
      = some ⟨.FinishSend (some (.register 5 409 ""))
          (some (if sampleClient.unacked_messages then ClientState.WaitingForAcks
                 else ClientState.Await)),
          some sampleClient⟩ :=
  c2_amended_register_error_not_fatal plainErrorReply "boom" false 409 rfl 5 sampleClient


/-- `removeFirstBy` finds nothing iff nothing matches. -/
theorem removeFirstBy_eq_none {p : Notification → Bool} :
    ∀ {l : List Notification}, removeFirstBy p l = Option.none ↔ ∀ n ∈ l, p n = false := by
  intro l
  induction l with
  | nil => simp [removeFirstBy]
  | cons x xs ih =>
      by_cases hx : p x
      · simp [removeFirstBy, hx]
      · simp [removeFirstBy, hx, Option.map_eq_none', ih]

/-- What `removeFirstBy` removes: the remainder is a sublist, the removed
element was a member satisfying the predicate, and the match count drops by
one. -/
theorem removeFirstBy_spec {p : Notification → Bool} :
    ∀ {l l' : List Notification} {n : Notification},
      removeFirstBy p l = some (n, l') →
      List.Sublist l' l ∧ n ∈ l ∧ p n = true ∧ l.countP p = l'.countP p + 1 := by
  intro l
  induction l with
  | nil => intro l' n h; cases h
  | cons x xs ih =>
      intro l' n h
      by_cases hx : p x
      · rw [removeFirstBy, if_pos hx] at h
        injection h with h1
        injection h1 with h2 h3
        subst h2
        subst h3
        refine ⟨List.Sublist.cons x (List.Sublist.refl _), List.mem_cons_self x _, hx, ?_⟩
        simp [List.countP_cons, hx]
      · rw [removeFirstBy, if_neg hx] at h
        cases hr : removeFirstBy p xs with
        | none => rw [hr] at h; cases h
        | some pr =>
            obtain ⟨m, ys⟩ := pr
            rw [hr, Option.map_some'] at h
            injection h with h1
            injection h1 with h2 h3
            subst h2
            subst h3
            obtain ⟨hsub, hmem, hp, hcount⟩ := ih hr
            refine ⟨List.Sublist.cons₂ x hsub, List.mem_cons_of_mem x hmem, hp, ?_⟩
            simp [List.countP_cons, hx, hcount]

/-- One ack-loop iteration only removes from the queues. -/
theorem process_one_ack_sublist (acc : AckAcc) (a : ClientAck) :
    List.Sublist (process_one_ack acc a).direct acc.direct ∧
    List.Sublist (process_one_ack acc a).stored acc.stored := by
  unfold process_one_ack
  cases hd : removeFirstBy (ack_matches a) acc.direct with
  | some pr =>
      obtain ⟨n, d⟩ := pr
      exact ⟨(removeFirstBy_spec hd).1, List.Sublist.refl _⟩
  | none =>
      cases hs : removeFirstBy (ack_matches a) acc.stored with
      | some pr =>
          obtain ⟨n, s⟩ := pr
          by_cases ht : n.topic.isSome <;>
            simp [ht] <;>
            exact (removeFirstBy_spec hs).1
      | none => exact ⟨List.Sublist.refl _, List.Sublist.refl _⟩

/-- The whole ack loop only removes from the queues. -/
theorem foldl_acks_sublist (us : List ClientAck) :
    ∀ acc : AckAcc,
      List.Sublist (us.foldl process_one_ack acc).direct acc.direct ∧
      List.Sublist (us.foldl process_one_ack acc).stored acc.stored := by
  induction us with
  | nil => intro acc; exact ⟨List.Sublist.refl _, List.Sublist.refl _⟩
  | cons a as ih =>
      intro acc
      have h1 := process_one_ack_sublist acc a
      have h2 := ih (process_one_ack acc a)
      exact ⟨h2.1.trans h1.1, h2.2.trans h1.2⟩

/-- If at most one queued notification matches an ack tuple, processing that
tuple leaves no match in either queue. -/
theorem process_one_ack_kills (acc : AckAcc) (a : ClientAck)
    (h : acc.direct.countP (ack_matches a) + acc.stored.countP (ack_matches a) ≤ 1) :
    (process_one_ack acc a).direct.countP (ack_matches a) = 0 ∧
    (process_one_ack acc a).stored.countP (ack_matches a) = 0 := by
  unfold process_one_ack
  cases hd : removeFirstBy (ack_matches a) acc.direct with
  | some pr =>
      obtain ⟨n, d⟩ := pr
      have hc := (removeFirstBy_spec hd).2.2.2
      constructor
      · show d.countP (ack_matches a) = 0
        omega
      · show acc.stored.countP (ack_matches a) = 0
        omega
  | none =>
      have hd0 : acc.direct.countP (ack_matches a) = 0 :=
        List.countP_eq_zero.mpr fun x hx => by
          simpa using removeFirstBy_eq_none.mp hd x hx
      cases hs : removeFirstBy (ack_matches a) acc.stored with
      | some pr =>
          obtain ⟨n, s⟩ := pr
          have hc := (removeFirstBy_spec hs).2.2.2
          have hsz : s.countP (ack_matches a) = 0 := by omega
          by_cases ht : n.topic.isSome <;> simp [ht, hd0, hsz]
      | none =>
          have hs0 : acc.stored.countP (ack_matches a) = 0 :=
            List.countP_eq_zero.mpr fun x hx => by
              simpa using removeFirstBy_eq_none.mp hs x hx
          exact ⟨hd0, hs0⟩

/-- Once no queued notification matches a tuple, further ack processing
cannot create a match. -/
theorem foldl_acks_countP_zero (us : List ClientAck) (acc : AckAcc)
    (p : Notification → Bool)
    (hd : acc.direct.countP p = 0) (hs : acc.stored.countP p = 0) :
    (us.foldl process_one_ack acc).direct.countP p = 0 ∧
    (us.foldl process_one_ack acc).stored.countP p = 0 := by
  have h := foldl_acks_sublist us acc
  constructor
  · have := h.1.countP_le p
    omega
  · have := h.2.countP_le p
    omega

/-- C4 (amended): provided each received ack tuple matches at most one
notification across the two queues — the source relies on this invariant;
with duplicates only the first match per tuple is removed — after
`process_acks` returns, no notification whose `(channel_id, version)` equals
one of the received tuples remains in either queue. -/
theorem c4_amended_acks_remove_all (w : WebPushClient) (updates : List ClientAck)
    (huniq : ∀ a ∈ updates,
        (w.unacked_direct_notifs ++ w.unacked_stored_notifs).countP (ack_matches a) ≤ 1) :
    ∀ a ∈ updates, ∀ n : Notification,
      (n ∈ (process_acks w updates).1.unacked_direct_notifs ∨
       n ∈ (process_acks w updates).1.unacked_stored_notifs) →
      ack_matches a n = false := by
  intro a ha n hn
  have hcount := huniq a ha
  rw [List.countP_append] at hcount
  obtain ⟨l₁, l₂, rfl⟩ := List.append_of_mem ha
  have hfold : (l₁ ++ a :: l₂).foldl process_one_ack
      (⟨w.unacked_direct_notifs, w.unacked_stored_notifs, w.stats, []⟩ : AckAcc)
      = l₂.foldl process_one_ack
          (process_one_ack (l₁.foldl process_one_ack
            ⟨w.unacked_direct_notifs, w.unacked_stored_notifs, w.stats, []⟩) a) := by
    rw [List.foldl_append]
    rfl
  have hsub1 := foldl_acks_sublist l₁
    (⟨w.unacked_direct_notifs, w.unacked_stored_notifs, w.stats, []⟩ : AckAcc)
  have h1 : (l₁.foldl process_one_ack
      (⟨w.unacked_direct_notifs, w.unacked_stored_notifs, w.stats, []⟩ : AckAcc)).direct.countP
        (ack_matches a) ≤ w.unacked_direct_notifs.countP (ack_matches a) :=
    hsub1.1.countP_le _
  have h2 : (l₁.foldl process_one_ack
      (⟨w.unacked_direct_notifs, w.unacked_stored_notifs, w.stats, []⟩ : AckAcc)).stored.countP
        (ack_matches a) ≤ w.unacked_stored_notifs.countP (ack_matches a) :=
    hsub1.2.countP_le _
  have hkill := process_one_ack_kills
    (l₁.foldl process_one_ack
      (⟨w.unacked_direct_notifs, w.unacked_stored_notifs, w.stats, []⟩ : AckAcc)) a
    (by omega)
  have hzero := foldl_acks_countP_zero l₂ _ (ack_matches a) hkill.1 hkill.2
  have hdz : ((l₁ ++ a :: l₂).foldl process_one_ack
      (⟨w.unacked_direct_notifs, w.unacked_stored_notifs, w.stats, []⟩ : AckAcc)).direct.countP
        (ack_matches a) = 0 := by
    rw [hfold]
    exact hzero.1
  have hsz : ((l₁ ++ a :: l₂).foldl process_one_ack
      (⟨w.unacked_direct_notifs, w.unacked_stored_notifs, w.stats, []⟩ : AckAcc)).stored.countP
        (ack_matches a) = 0 := by
    rw [hfold]
    exact hzero.2
  rcases hn with hn | hn
  · have hm : n ∈ ((l₁ ++ a :: l₂).foldl process_one_ack
        (⟨w.unacked_direct_notifs, w.unacked_stored_notifs, w.stats, []⟩ : AckAcc)).direct := hn
    simpa using List.countP_eq_zero.mp hdz n hm
  · have hm : n ∈ ((l₁ ++ a :: l₂).foldl process_one_ack
        (⟨w.unacked_direct_notifs, w.unacked_stored_notifs, w.stats, []⟩ : AckAcc)).stored := hn
    simpa using List.countP_eq_zero.mp hsz n hm

/-- A client whose direct queue holds the same notification twice. -/
def dupDirectClient : WebPushClient :=
  { sampleClient with unacked_direct_notifs := [n0, n0] }

/-- C4 counterexample: when `unacked_direct` holds two notifications with the
same `(channel_id, version)` and that tuple is acked once, `process_acks`
removes only the first match — a notification matching the received tuple
remains in the queue. -/
theorem c4_counterexample :
    (process_acks dupDirectClient [a0]).1.unacked_direct_notifs = [n0] ∧
    n0 ∈ (process_acks dupDirectClient [a0]).1.unacked_direct_notifs ∧
    ack_matches a0 n0 = true :=
  ⟨rfl, List.mem_singleton.mpr rfl, rfl⟩

/-- A client whose direct queue holds one matching and one non-matching
notification. -/
def mixedDirectClient : WebPushClient :=
  { sampleClient with unacked_direct_notifs := [n0, n1] }

theorem c4_witness : ack_matches a0 n1 = false :=
  c4_amended_acks_remove_all mixedDirectClient [a0] (by decide) a0 (by decide) n1
    (Or.inl (by decide))

/-- Every delete chained by the ack loop is a topic notification that was in
the stored queue at loop entry. -/
theorem foldl_acks_deletes_inv (us : List ClientAck) :
    ∀ (acc : AckAcc) (s0 : List Notification),
      List.Sublist acc.stored s0 →
      (∀ n ∈ acc.deletes, n.topic.isSome = true ∧ n ∈ s0) →
      ∀ n ∈ (us.foldl process_one_ack acc).deletes, n.topic.isSome = true ∧ n ∈ s0 := by
  induction us with
  | nil => intro acc s0 _ hdel n hn; exact hdel n hn
  | cons a as ih =>
      intro acc s0 hsub hdel
      apply ih (process_one_ack acc a) s0
      · exact (process_one_ack_sublist acc a).2.trans hsub
      · unfold process_one_ack
        cases hd : removeFirstBy (ack_matches a) acc.direct with
        | some pr =>
            obtain ⟨m, d⟩ := pr
            exact hdel
        | none =>
            cases hs : removeFirstBy (ack_matches a) acc.stored with
            | some pr =>
                obtain ⟨m, s⟩ := pr
                obtain ⟨hms, hmem, -, -⟩ := removeFirstBy_spec hs
                by_cases ht : m.topic.isSome
                · simp only [ht, if_true]
                  intro n hn
                  rcases List.mem_append.mp hn with hn | hn
                  · exact hdel n hn
                  · rw [List.mem_singleton.mp hn]
                    exact ⟨ht, hsub.subset hmem⟩
                · simp only [ht, if_false]
                  exact hdel
            | none => exact hdel

/-- C5: each ack tuple is matched against `unacked_direct` first (removing
the notification, bumping `direct_acked`), only otherwise against
`unacked_stored` (removing it, bumping `stored_acked`, and chaining exactly
one `DeleteMessage` iff the removed notification has a topic); a tuple
matching neither queue is silently ignored; the next state is
`WaitingForDelete` iff at least one delete was chained, else
`WaitingForAcks`; and every chained delete is a topic notification taken
from the stored queue. -/
theorem c5_ack_matching_and_deletes :
    (∀ (acc : AckAcc) (a : ClientAck) (n : Notification) (d : List Notification),
        removeFirstBy (ack_matches a) acc.direct = some (n, d) →
        process_one_ack acc a
          = { acc with
                direct := d
                stats := { acc.stats with direct_acked := acc.stats.direct_acked + 1 } }) ∧
    (∀ (acc : AckAcc) (a : ClientAck) (n : Notification) (s : List Notification),
        removeFirstBy (ack_matches a) acc.direct = Option.none →
        removeFirstBy (ack_matches a) acc.stored = some (n, s) →
        process_one_ack acc a
          = (if n.topic.isSome
             then { acc with
                      stored := s
                      deletes := acc.deletes ++ [n]
                      stats := { acc.stats with
                                   stored_acked := acc.stats.stored_acked + 1 } }
             else { acc with
                      stored := s
                      stats := { acc.stats with
                                   stored_acked := acc.stats.stored_acked + 1 } })) ∧
    (∀ (acc : AckAcc) (a : ClientAck),
        removeFirstBy (ack_matches a) acc.direct = Option.none →
        removeFirstBy (ack_matches a) acc.stored = Option.none →
        process_one_ack acc a = acc) ∧
    (∀ (w : WebPushClient) (updates : List ClientAck),
        (process_acks w updates).2.2
          = if (process_acks w updates).2.1.isEmpty then ClientState.WaitingForAcks
            else ClientState.WaitingForDelete) ∧
    (∀ (w : WebPushClient) (updates : List ClientAck) (n : Notification),
        n ∈ (process_acks w updates).2.1 →
        n.topic.isSome = true ∧ n ∈ w.unacked_stored_notifs) := by
  refine ⟨?_, ?_, ?_, ?_, ?_⟩
  · intro acc a n d h
    simp [process_one_ack, h]
  · intro acc a n s h1 h2
    by_cases ht : n.topic.isSome <;> simp [process_one_ack, h1, h2, ht]
  · intro acc a h1 h2
    simp [process_one_ack, h1, h2]
  · intro w updates
    rfl
  · intro w updates n hn
    exact foldl_acks_deletes_inv updates
      ⟨w.unacked_direct_notifs, w.unacked_stored_notifs, w.stats, []⟩
      w.unacked_stored_notifs (List.Sublist.refl _) (by intro x hx; cases hx) n hn

theorem c5_witness :
    process_one_ack ⟨[], [], sampleClient.stats, []⟩ a0 = ⟨[], [], sampleClient.stats, []⟩ :=
  c5_ack_matching_and_deletes.2.2.1 ⟨[], [], sampleClient.stats, []⟩ a0 rfl rfl

/-- State-indexed invariant on the client record, for the states that
`FinishSend` ever queues behind a send (`FinishSend` itself is never
queued). -/
def plainStateOK : ClientState → WebPushClient → Prop
  | .Await, w => w.flags.increment_storage = false
  | .CheckStorage, w => w.flags.increment_storage = false ∧ w.flags.check = true
  | .WaitingForCheckStorage, w => w.flags.increment_storage = false ∧ w.flags.check = true
  | .IncrementStorage, w => w.flags.increment_storage = true
  | .WaitingForMigrateUser, w => w.flags.increment_storage = false
  | .WaitingForRegister _, w => w.flags.increment_storage = true → w.unacked_messages = true
  | .WaitingForUnRegister _, w => w.flags.increment_storage = true → w.unacked_messages = true
  | .FinishSend _ _, _ => False
  | _, _ => True

/-- State-indexed invariant on the client record: as `plainStateOK`, with a
queued continuation behind a `FinishSend` checked in place (the source only
ever boxes a continuation, never leaves it absent). -/
def StateOK : ClientState → WebPushClient → Prop
  | .FinishSend _ (some s), w => plainStateOK s w
  | .FinishSend _ Option.none, _ => False
  | s, w => plainStateOK s w

/-- Flag coherence of the client record: `increment_storage` implies a
retrieved high-watermark and an active storage check. -/
def FlagsOK (w : WebPushClient) : Prop :=
  (w.flags.increment_storage = true → w.unacked_stored_highest.isSome = true) ∧
  (w.flags.increment_storage = true → w.flags.check = true)

/-- The machine invariant: before hello there is no client record and the
state is confined to the handshake/teardown states; after hello the record
satisfies the flag and per-state conditions. -/
def MachineInv (c : Config) : Prop :=
  match c.webpush with
  | Option.none =>
      c.state = .WaitingForHello ∨ c.state = .WaitingForProcessHello ∨
      (∃ e, c.state = .ShutdownCleanup e) ∨ c.state = .Done
  | some w => FlagsOK w ∧ StateOK c.state w

/-- Well-formed data-plane responses: a check-storage batch that is
non-empty carries a timestamp.  Every other event is unconstrained. -/
def wfEvent : Event → Prop
  | .checkResp (.ok r) => r.messages = [] ∨ r.timestamp.isSome = true
  | _ => True

/-- `plainStateOK` is at least as strong as `StateOK`. -/
theorem plainStateOK_to_StateOK (s : ClientState) (w : WebPushClient)
    (h : plainStateOK s w) : StateOK s w := by
  cases s with
  | FinishSend m next => exact absurd h (by simp [plainStateOK])
  | _ => exact h

/-- Case analysis of a successful `determine_acked_state`: which state it
picked and what the flags said. -/
theorem determine_acked_state_spec (w : WebPushClient) (s : ClientState)
    (h : determine_acked_state w = some s) :
    w.unacked_messages = false ∧
    ((s = .IncrementStorage ∧ w.flags.check = true ∧ w.flags.increment_storage = true) ∨
     (s = .CheckStorage ∧ w.flags.check = true ∧ w.flags.increment_storage = false) ∨
     (s = .WaitingForMigrateUser ∧ w.flags.check = false) ∨
     (s = .WaitingForDropUser ∧ w.flags.check = false ∧
        w.flags.rotate_message_table = false) ∨
     (s = .Await ∧ w.flags.none = true)) := by
  have hb : w.unacked_messages = false := by
    cases hb : w.unacked_messages
    · rfl
    · simp [determine_acked_state, hb] at h
  refine ⟨hb, ?_⟩
  simp only [determine_acked_state, hb, Bool.not_false, Bool.true_and] at h
  by_cases h1 : w.flags.check = true ∧ w.flags.increment_storage = true
  · rw [h1.1, h1.2] at h
    simp at h
    exact Or.inl ⟨h.symm, h1⟩
  · have h1b : (w.flags.check && w.flags.increment_storage) = false := by
      cases hc : w.flags.check <;> cases hi : w.flags.increment_storage <;>
        simp_all
    rw [h1b] at h
    simp only [Bool.false_eq_true, if_false] at h
    by_cases h2 : w.flags.check = true
    · rw [if_pos h2] at h
      refine Or.inr (Or.inl ⟨(Option.some.injEq _ _ ▸ h).symm, h2, ?_⟩)
      cases hi : w.flags.increment_storage
      · rfl
      · rw [h2, hi] at h1b; cases h1b
    · have h2b : w.flags.check = false := by
        cases hc : w.flags.check
        · rfl
        · exact absurd hc h2
      rw [h2b] at h
      simp only [Bool.false_eq_true, if_false] at h
      by_cases h3 : w.flags.rotate_message_table = true
      · rw [if_pos h3] at h
        exact Or.inr (Or.inr (Or.inl ⟨(Option.some.injEq _ _ ▸ h).symm, h2b⟩))
      · have h3b : w.flags.rotate_message_table = false := by
          cases hc : w.flags.rotate_message_table
          · rfl
          · exact absurd hc h3
        rw [h3b] at h
        simp only [Bool.false_eq_true, if_false] at h
        by_cases h4 : w.flags.reset_uaid = true
        · rw [if_pos h4] at h
          exact Or.inr (Or.inr (Or.inr (Or.inl
            ⟨(Option.some.injEq _ _ ▸ h).symm, h2b, h3b⟩)))
        · have h4b : w.flags.reset_uaid = false := by
            cases hc : w.flags.reset_uaid
            · rfl
            · exact absurd hc h4
          rw [h4b] at h
          simp only [Bool.false_eq_true, if_false] at h
          by_cases h5 : w.flags.none = true
          · rw [if_pos h5] at h
            exact Or.inr (Or.inr (Or.inr (Or.inr
              ⟨(Option.some.injEq _ _ ▸ h).symm, h5⟩)))
          · have h5b : w.flags.none = false := by
              cases hc : w.flags.none
              · rfl
              · exact absurd hc h5
            rw [h5b] at h
            simp at h

/-- A statistics update does not change the queues. -/
theorem unacked_messages_stats (w : WebPushClient) (st : SessionStatistics) :
    ({ w with stats := st } : WebPushClient).unacked_messages = w.unacked_messages := rfl

/-- Completing a register call preserves flag coherence, and its continuation
state satisfies the per-state invariant. -/
theorem register_complete_inv (ch : Uuid) (r : RegisterResponse) (w : WebPushClient)
    (hf : FlagsOK w) (hs : w.flags.increment_storage = true → w.unacked_messages = true) :
    FlagsOK (register_complete ch r w).2.1 ∧
    plainStateOK (register_complete ch r w).2.2 (register_complete ch r w).2.1 := by
  have hincr : w.flags.increment_storage = false ∨ w.unacked_messages = true := by
    cases hi : w.flags.increment_storage
    · exact Or.inl rfl
    · exact Or.inr (hs hi)
  cases r with
  | Success ep =>
      refine ⟨hf, ?_⟩
      cases hu : w.unacked_messages with
      | true => simp [register_complete, unacked_messages_stats, hu, plainStateOK]
      | false =>
          rcases hincr with hi | hi
          · simp [register_complete, unacked_messages_stats, hu, plainStateOK, hi]
          · simp [hu] at hi
  | Error msg er st =>
      refine ⟨hf, ?_⟩
      cases hu : w.unacked_messages with
      | true => simp [register_complete, hu, plainStateOK]
      | false =>
          rcases hincr with hi | hi
          · simp [register_complete, hu, plainStateOK, hi]
          · simp [hu] at hi

/-- Completing an unregister call preserves flag coherence, and its
continuation state satisfies the per-state invariant. -/
theorem unregister_complete_inv (ch : Uuid) (r : UnRegisterResponse) (w : WebPushClient)
    (hf : FlagsOK w) (hs : w.flags.increment_storage = true → w.unacked_messages = true) :
    FlagsOK (unregister_complete ch r w).2.1 ∧
    plainStateOK (unregister_complete ch r w).2.2 (unregister_complete ch r w).2.1 := by
  have hincr : w.flags.increment_storage = false ∨ w.unacked_messages = true := by
    cases hi : w.flags.increment_storage
    · exact Or.inl rfl
    · exact Or.inr (hs hi)
  cases r with
  | Success su =>
      refine ⟨hf, ?_⟩
      cases hu : w.unacked_messages with
      | true => simp [unregister_complete, unacked_messages_stats, hu, plainStateOK]
      | false =>
          rcases hincr with hi | hi
          · simp [unregister_complete, unacked_messages_stats, hu, plainStateOK, hi]
          · simp [hu] at hi
  | Error msg er st =>
      refine ⟨hf, ?_⟩
      cases hu : w.unacked_messages with
      | true => simp [unregister_complete, hu, plainStateOK]
      | false =>
          rcases hincr with hi | hi
          · simp [unregister_complete, hu, plainStateOK, hi]
          · simp [hu] at hi

set_option maxHeartbeats 1000000 in
/-- Preservation: from any invariant configuration, any well-formed event
produces a successor configuration (no step panics) that again satisfies the
invariant. -/
theorem step_inv (c : Config) (e : Event) (hc : MachineInv c) (he : wfEvent e) :
    ∃ d, step c e = some d ∧ MachineInv d := by
  obtain ⟨st, wp⟩ := c
  cases wp with
  | none =>
      simp only [MachineInv] at hc
      rcases hc with h | h | ⟨er, h⟩ | h <;> subst h
      · -- WaitingForHello
        cases e with
        | msg m =>
            cases m with
            | hello u uw =>
                cases uw with
                | none => exact ⟨_, rfl, Or.inr (Or.inr (Or.inl ⟨_, rfl⟩))⟩
                | some b =>
                    cases b with
                    | true => exact ⟨_, rfl, Or.inr (Or.inl rfl)⟩
                    | false => exact ⟨_, rfl, Or.inr (Or.inr (Or.inl ⟨_, rfl⟩))⟩
            | register ch k => exact ⟨_, rfl, Or.inr (Or.inr (Or.inl ⟨_, rfl⟩))⟩
            | unregister ch k => exact ⟨_, rfl, Or.inr (Or.inr (Or.inl ⟨_, rfl⟩))⟩
            | ack us => exact ⟨_, rfl, Or.inr (Or.inr (Or.inl ⟨_, rfl⟩))⟩
            | nack => exact ⟨_, rfl, Or.inr (Or.inr (Or.inl ⟨_, rfl⟩))⟩
        | timeout => exact ⟨_, rfl, Or.inr (Or.inr (Or.inl ⟨_, rfl⟩))⟩
        | eof => exact ⟨_, rfl, Or.inr (Or.inr (Or.inl ⟨_, rfl⟩))⟩
        | _ => exact ⟨_, rfl, Or.inl rfl⟩
      · -- WaitingForProcessHello
        cases e with
        | helloResp r =>
            cases r with
            | ok hr =>
                cases hu : hr.uaid with
                | some u =>
                    have hstep : step ⟨.WaitingForProcessHello, Option.none⟩
                        (.helloResp (.ok hr))
                        = some ⟨(process_hello u hr.message_month hr.reset_uaid
                            hr.rotate_message_table hr.check_storage hr.connected_at).2,
                          some (process_hello u hr.message_month hr.reset_uaid
                            hr.rotate_message_table hr.check_storage hr.connected_at).1⟩ := by
                      simp [step, hu]
                    refine ⟨_, hstep, ?_⟩
                    simp only [MachineInv]
                    constructor
                    · constructor <;> intro h <;>
                        simp [process_hello, ClientFlags.new] at h
                    · simp [StateOK, plainStateOK, process_hello, ClientFlags.new]
                | none =>
                    have hstep : step ⟨.WaitingForProcessHello, Option.none⟩
                        (.helloResp (.ok hr))
                        = some ⟨.ShutdownCleanup (some "Already connected elsewhere"),
                            Option.none⟩ := by
                      simp [step, hu]
                    exact ⟨_, hstep, Or.inr (Or.inr (Or.inl ⟨_, rfl⟩))⟩
            | error err => exact ⟨_, rfl, Or.inr (Or.inr (Or.inl ⟨_, rfl⟩))⟩
        | _ => exact ⟨_, rfl, Or.inr (Or.inl rfl)⟩
      · -- ShutdownCleanup
        cases e with
        | tick => exact ⟨_, rfl, Or.inr (Or.inr (Or.inr rfl))⟩
        | _ => exact ⟨_, rfl, Or.inr (Or.inr (Or.inl ⟨_, rfl⟩))⟩
      · -- Done
        cases e <;> exact ⟨_, rfl, Or.inr (Or.inr (Or.inr rfl))⟩
  | some w =>
      simp only [MachineInv] at hc
      obtain ⟨hf, hs⟩ := hc
      cases st with
      | WaitingForHello =>
          cases e
          case msg m =>
            cases m with
            | hello u uw =>
                cases uw with
                | none => exact ⟨_, rfl, hf, trivial⟩
                | some b => cases b <;> exact ⟨_, rfl, hf, trivial⟩
            | register ch k => exact ⟨_, rfl, hf, trivial⟩
            | unregister ch co => exact ⟨_, rfl, hf, trivial⟩
            | ack us => exact ⟨_, rfl, hf, trivial⟩
            | nack => exact ⟨_, rfl, hf, trivial⟩
          case timeout => exact ⟨_, rfl, hf, trivial⟩
          case eof => exact ⟨_, rfl, hf, trivial⟩
          all_goals exact ⟨_, rfl, hf, hs⟩
      | WaitingForProcessHello =>
          cases e
          case helloResp r =>
            cases r with
            | ok hr =>
                cases hu : hr.uaid with
                | some u =>
                    have hstep : step ⟨.WaitingForProcessHello, some w⟩
                        (.helloResp (.ok hr))
                        = some ⟨(process_hello u hr.message_month hr.reset_uaid
                            hr.rotate_message_table hr.check_storage hr.connected_at).2,
                          some (process_hello u hr.message_month hr.reset_uaid
                            hr.rotate_message_table hr.check_storage hr.connected_at).1⟩ := by
                      simp [step, hu]
                    refine ⟨_, hstep, ?_⟩
                    constructor
                    · constructor <;> intro h <;>
                        simp [process_hello, ClientFlags.new] at h
                    · simp [StateOK, plainStateOK, process_hello, ClientFlags.new]
                | none =>
                    have hstep : step ⟨.WaitingForProcessHello, some w⟩
                        (.helloResp (.ok hr))
                        = some ⟨.ShutdownCleanup (some "Already connected elsewhere"),
                            some w⟩ := by
                      simp [step, hu]
                    exact ⟨_, hstep, hf, trivial⟩
            | error err => exact ⟨_, rfl, hf, trivial⟩
          all_goals exact ⟨_, rfl, hf, hs⟩
      | WaitingForRegister ch =>
          cases e
          case registerResp r =>
            cases r with
            | ok rr =>
                have h := register_complete_inv ch rr w hf hs
                exact ⟨_, rfl, h.1, h.2⟩
            | error err => exact ⟨_, rfl, hf, trivial⟩
          all_goals exact ⟨_, rfl, hf, hs⟩
      | WaitingForUnRegister ch =>
          cases e
          case unregisterResp r =>
            cases r with
            | ok rr =>
                have h := unregister_complete_inv ch rr w hf hs
                exact ⟨_, rfl, h.1, h.2⟩
            | error err => exact ⟨_, rfl, hf, trivial⟩
          all_goals exact ⟨_, rfl, hf, hs⟩
      | WaitingForCheckStorage =>
          obtain ⟨hi, hchk⟩ := hs
          cases e
          case checkResp r =>
            cases r with
            | ok cr =>
                refine ⟨_, rfl, ?_⟩
                simp only [wfEvent] at he
                rcases List.eq_nil_or_concat cr.messages with hm | ⟨l, m, hm⟩
                · constructor
                  · constructor <;> intro h <;>
                      simp [checkStorageComplete, hm, hi] at h
                  · have h2 : (checkStorageComplete w cr).2 = ClientState.Await := by
                      simp [checkStorageComplete, hm]
                    rw [h2]
                    show (checkStorageComplete w cr).1.flags.increment_storage = false
                    simp [checkStorageComplete, hm, hi]
                · have hts : cr.timestamp.isSome = true := by
                    rcases he with h | h
                    · rw [hm] at h
                      simp at h
                    · exact h
                  have h2 : (checkStorageComplete w cr).2
                      = ClientState.FinishSend (some (.notification m))
                          (some (.SendMessages (some (cr.messages.dropLast)))) := by
                    simp [checkStorageComplete, hm, List.getLast?_concat]
                  constructor
                  · constructor <;> intro h
                    · show (checkStorageComplete w cr).1.unacked_stored_highest.isSome = true
                      simp [checkStorageComplete, hm, List.getLast?_concat, hts]
                    · show (checkStorageComplete w cr).1.flags.check = true
                      simp [checkStorageComplete, hm, List.getLast?_concat, hchk]
                  · rw [h2]
                    trivial
            | error err => exact ⟨_, rfl, hf, trivial⟩
          all_goals exact ⟨_, rfl, hf, hi, hchk⟩
      | WaitingForDelete =>
          cases e
          case deleteResp r =>
            cases r with
            | ok dr => exact ⟨_, rfl, hf, trivial⟩
            | error err => exact ⟨_, rfl, hf, trivial⟩
          all_goals exact ⟨_, rfl, hf, hs⟩
      | WaitingForIncrementStorage =>
          cases e
          case incResp r =>
            cases r with
            | ok ir =>
                refine ⟨_, rfl, ?_, trivial⟩
                constructor <;> intro h <;> simp at h
            | error err => exact ⟨_, rfl, hf, trivial⟩
          all_goals exact ⟨_, rfl, hf, hs⟩
      | WaitingForDropUser =>
          cases e
          case dropResp r =>
            cases r with
            | ok dr => exact ⟨_, rfl, hf, trivial⟩
            | error err => exact ⟨_, rfl, hf, trivial⟩
          all_goals exact ⟨_, rfl, hf, hs⟩
      | WaitingForMigrateUser =>
          cases e
          case migrateResp r =>
            cases r with
            | ok mr =>
                refine ⟨_, rfl, ?_, ?_⟩
                · constructor <;> intro h <;>
                    (have h2 : w.flags.increment_storage = true := h
                     rw [hs] at h2
                     cases h2)
                · exact hs
            | error err => exact ⟨_, rfl, hf, trivial⟩
          all_goals exact ⟨_, rfl, hf, hs⟩
      | FinishSend m next =>
          cases next with
          | none => exact hs.elim
          | some nxt =>
              cases e
              case sink =>
                cases m with
                | none => exact ⟨_, rfl, hf, plainStateOK_to_StateOK nxt w hs⟩
                | some mm => exact ⟨_, rfl, hf, hs⟩
              all_goals exact ⟨_, rfl, hf, hs⟩
      | SendMessages more =>
          cases e
          case tick =>
            cases more with
            | some msgs =>
                cases hl : msgs.getLast? with
                | some m =>
                    have hstep : step ⟨.SendMessages (some msgs), some w⟩ .tick
                        = some ⟨.FinishSend (some (.notification m))
                            (some (.SendMessages (if msgs.dropLast.isEmpty then Option.none
                              else some msgs.dropLast))), some w⟩ := by
                      simp [step, hl]
                    exact ⟨_, hstep, hf, trivial⟩
                | none =>
                    have hstep : step ⟨.SendMessages (some msgs), some w⟩ .tick
                        = some ⟨.SendMessages Option.none, some w⟩ := by
                      simp [step, hl]
                    exact ⟨_, hstep, hf, trivial⟩
            | none => exact ⟨_, rfl, hf, trivial⟩
          all_goals exact ⟨_, rfl, hf, hs⟩
      | CheckStorage =>
          obtain ⟨hi, hchk⟩ := hs
          cases e <;> exact ⟨_, rfl, hf, hi, hchk⟩
      | IncrementStorage =>
          cases e
          case tick =>
            have hhs := hf.1 hs
            cases hh : w.unacked_stored_highest with
            | some t =>
                have hstep : step ⟨.IncrementStorage, some w⟩ .tick
                    = some ⟨.WaitingForIncrementStorage, some w⟩ := by
                  simp [step, hh]
                exact ⟨_, hstep, hf, trivial⟩
            | none => rw [hh] at hhs; cases hhs
          all_goals exact ⟨_, rfl, hf, hs⟩
      | WaitingForAcks =>
          cases hdet : determine_acked_state w with
          | some s' =>
              have hspec := determine_acked_state_spec w s' hdet
              have hsok : StateOK s' w := by
                rcases hspec.2 with ⟨rfl, h1, h2⟩ | ⟨rfl, h1, h2⟩ | ⟨rfl, h1⟩ |
                  ⟨rfl, h1, h2⟩ | ⟨rfl, h1⟩
                · exact h2
                · exact ⟨h2, h1⟩
                · cases hi2 : w.flags.increment_storage
                  · exact hi2
                  · rw [hf.2 hi2] at h1
                    cases h1
                · trivial
                · exact ((flags_none_iff w.flags).mp h1).2.1
              cases e
              case tick =>
                refine ⟨⟨s', some w⟩, ?_, hf, hsok⟩
                simp [step, hdet]
              all_goals refine ⟨⟨.WaitingForAcks, some w⟩, ?_, hf, hs⟩ <;> simp [step, hdet]
          | none =>
              cases e
              case msg m =>
                cases m with
                | hello u uw =>
                    refine ⟨⟨.ShutdownCleanup (some "Invalid state transition"), some w⟩,
                      ?_, hf, trivial⟩
                    simp [step, hdet]
                | register ch k =>
                    refine ⟨⟨.WaitingForRegister ch, some w⟩, ?_, hf, ?_⟩
                    · simp [step, hdet]
                    · intro hi2
                      cases hu : w.unacked_messages
                      · have hchk2 := hf.2 hi2
                        rw [determine_acked_state, hu] at hdet
                        simp [hchk2, hi2] at hdet
                      · rfl
                | unregister ch co =>
                    refine ⟨⟨.WaitingForUnRegister ch, some w⟩, ?_, hf, ?_⟩
                    · simp [step, hdet]
                    · intro hi2
                      cases hu : w.unacked_messages
                      · have hchk2 := hf.2 hi2
                        rw [determine_acked_state, hu] at hdet
                        simp [hchk2, hi2] at hdet
                      · rfl
                | ack us =>
                    refine ⟨⟨(process_acks w us).2.2, some (process_acks w us).1⟩,
                      ?_, hf, ?_⟩
                    · simp [step, hdet]
                    · have h22 : (process_acks w us).2.2
                          = if (process_acks w us).2.1.isEmpty then ClientState.WaitingForAcks
                            else ClientState.WaitingForDelete := rfl
                      rw [h22]
                      cases (process_acks w us).2.1.isEmpty <;> trivial
                | nack =>
                    refine ⟨⟨.WaitingForAcks,
                      some { w with stats := { w.stats with nacks := w.stats.nacks + 1 } }⟩,
                      ?_, hf, trivial⟩
                    simp [step, hdet]
              case eof =>
                refine ⟨⟨.ShutdownCleanup (some "Client dropped"), some w⟩, ?_, hf, trivial⟩
                simp [step, hdet]
              all_goals refine ⟨⟨.WaitingForAcks, some w⟩, ?_, hf, hs⟩ <;> simp [step, hdet]
      | Await =>
          have hsa : w.flags.increment_storage = false := hs
          cases hchk : w.flags.check with
          | true =>
              cases e
              case tick =>
                refine ⟨⟨.CheckStorage, some w⟩, ?_, hf, hs, hchk⟩
                simp [step, hchk]
              all_goals refine ⟨⟨.Await, some w⟩, ?_, hf, hs⟩ <;> simp [step, hchk]
          | false =>
              cases e
              case msg m =>
                cases m with
                | hello u uw =>
                    refine ⟨⟨.ShutdownCleanup (some "Invalid message"), some w⟩,
                      ?_, hf, trivial⟩
                    simp [step, hchk]
                | ack us =>
                    refine ⟨⟨.ShutdownCleanup (some "Invalid message"), some w⟩,
                      ?_, hf, trivial⟩
                    simp [step, hchk]
                | register ch k =>
                    refine ⟨⟨.WaitingForRegister ch, some w⟩, ?_, hf, ?_⟩
                    · simp [step, hchk]
                    · intro hi2
                      rw [hs] at hi2
                      cases hi2
                | unregister ch co =>
                    refine ⟨⟨.WaitingForUnRegister ch, some w⟩, ?_, hf, ?_⟩
                    · simp [step, hchk]
                    · intro hi2
                      rw [hs] at hi2
                      cases hi2
                | nack =>
                    refine ⟨⟨.WaitingForAcks,
                      some { w with stats := { w.stats with nacks := w.stats.nacks + 1 } }⟩,
                      ?_, hf, trivial⟩
                    simp [step, hchk]
              case mail n =>
                cases n with
                | notification nn =>
                    refine ⟨⟨.FinishSend (some (.notification nn)) (some .WaitingForAcks),
                      some { w with unacked_direct_notifs :=
                        w.unacked_direct_notifs ++ [nn] }⟩, ?_, hf, trivial⟩
                    simp [step, hchk]
                | checkStorage =>
                    refine ⟨⟨.Await,
                      some { w with flags :=
                        { w.flags with include_topic := true, check := true } }⟩,
                      ?_, ?_, ?_⟩
                    · simp [step, hchk]
                    · constructor <;> intro h <;>
                        (have h2 : w.flags.increment_storage = true := h
                         simp [hsa] at h2)
                    · exact hsa
              case eof =>
                refine ⟨⟨.ShutdownCleanup (some "Client dropped"), some w⟩, ?_, hf, trivial⟩
                simp [step, hchk]
              all_goals refine ⟨⟨.Await, some w⟩, ?_, hf, hs⟩ <;> simp [step, hchk]
      | Done => cases e <;> exact ⟨_, rfl, hf, hs⟩
      | ShutdownCleanup er =>
          cases e
          case tick => exact ⟨_, rfl, Or.inr (Or.inr (Or.inr rfl))⟩
          all_goals exact ⟨_, rfl, hf, hs⟩

/-- The machine invariant is inductive along any run of well-formed events,
and no step of such a run panics. -/
theorem run_inv (es : List Event) :
    ∀ c : Config, MachineInv c → (∀ e ∈ es, wfEvent e) →
      ∃ d, run c es = some d ∧ MachineInv d := by
  induction es with
  | nil => intro c hc _; exact ⟨c, rfl, hc⟩
  | cons e es ih =>
      intro c hc hwf
      obtain ⟨d, hd, hinv⟩ := step_inv c e hc (hwf e (List.mem_cons_self e es))
      obtain ⟨d2, hd2, hinv2⟩ := ih d hinv fun x hx => hwf x (List.mem_cons_of_mem e hx)
      exact ⟨d2, by rw [run, hd]; exact hd2, hinv2⟩

/-- The event trace of a session whose check-storage response returns one
non-topic message but no timestamp: hello (flags request a storage check),
the hello frame drains, the check-storage call returns `{include_topic:
false, messages: [n0], timestamp: null}`, the message drains and is acked,
and `determine_acked_state` picks `IncrementStorage`. -/
def ev13 : List Event :=
  [ .msg (.hello Option.none (some true)),
    .helloResp (.ok { uaid := some 1, message_month := "m1", check_storage := true,
                      reset_uaid := false, rotate_message_table := false,
                      connected_at := 0 }),
    .sink, .sink, .tick, .tick,
    .checkResp (.ok { include_topic := false, messages := [n0],
                      timestamp := Option.none }),
    .sink, .sink, .tick, .tick,
    .msg (.ack [⟨1, "v1"⟩]),
    .tick ]

/-- C3 counterexample: the trace `ev13` — every input well-typed — reaches
`IncrementStorage` with `flags.increment_storage = true` but
`unacked_stored_highest = None`, and the next transition is the panicking
unwrap (the run returns `none`). -/
theorem c3_counterexample :
    (match run initConfig ev13 with
     | some ⟨.IncrementStorage, some w⟩ =>
         w.flags.increment_storage = true ∧ w.unacked_stored_highest = Option.none
     | _ => False) ∧
    run initConfig (ev13 ++ [.tick]) = Option.none :=
  ⟨⟨rfl, rfl⟩, rfl⟩

/-- C3 (amended): provided every check-storage response with a non-empty
message batch carries a timestamp, every run from the initial configuration
is panic-free, and whenever the machine is in `IncrementStorage` — the state
that issues the increment-storage call by unwrapping
`unacked_stored_highest` — the high-watermark is `Some`. -/
theorem c3_amended_increment_unwrap_safe (es : List Event)
    (hwf : ∀ e ∈ es, wfEvent e) :
    ∃ d, run initConfig es = some d ∧
      (∀ w, d.webpush = some w → d.state = .IncrementStorage →
        w.unacked_stored_highest.isSome = true) := by
  obtain ⟨d, hd, hinv⟩ := run_inv es initConfig (Or.inl rfl) hwf
  refine ⟨d, hd, ?_⟩
  intro w hw hst
  obtain ⟨st, wp⟩ := d
  simp only at hw hst
  subst hw
  subst hst
  simp only [MachineInv] at hinv
  exact hinv.1.1 hinv.2

/-- The trace `ev13` with the timestamp the data plane is expected to send
alongside a non-empty batch. -/
def ev13good : List Event :=
  [ .msg (.hello Option.none (some true)),
    .helloResp (.ok { uaid := some 1, message_month := "m1", check_storage := true,
                      reset_uaid := false, rotate_message_table := false,
                      connected_at := 0 }),
    .sink, .sink, .tick, .tick,
    .checkResp (.ok { include_topic := false, messages := [n0],
                      timestamp := some 100 }),
    .sink, .sink, .tick, .tick,
    .msg (.ack [⟨1, "v1"⟩]),
    .tick ]

theorem c3_witness :
    ∃ d, run initConfig ev13good = some d ∧
      (∀ w, d.webpush = some w → d.state = .IncrementStorage →
        w.unacked_stored_highest.isSome = true) :=
  c3_amended_increment_unwrap_safe ev13good (by
    intro e he
    fin_cases he <;> simp [wfEvent])
